import Mathlib

/-!
# Verification of the `scd30` sensor-driver crate

A shallow embedding of the SCD30 atmospheric-sensor driver
(`src/scd30/src/lib.rs` and `src/scd30/src/i2c.rs`) and proofs of the
specification's claims about it.

Modelling conventions:
* Machine integers (`u8`, `u16`) are `Nat` with explicit `% 256` / `% 65536`
  where the source performs a cast; hypotheses bound the values elsewhere.
* The generic I2C bus (`embedded_hal::i2c::I2c`) is modelled as a `BusEnv`:
  a deterministic oracle giving the outcome of each write and read, paired
  with a wire log recording every transaction issued (the "mock transport").
  The generic transport error type `I::Error` is instantiated at `Nat`.
* `f32` fields of `Sample` are represented by their IEEE-754 binary32 bit
  patterns (a `Nat`), since the driver only reinterprets bytes as floats
  (`f32::from_be_bytes`) and performs no floating-point arithmetic.
* Rust `Result` becomes `Except`; methods mutating `self` become functions
  returning the result together with the final state.
-/

namespace Scd30

/-! ## Checksum engine (`SH30CRC`, `src/scd30/src/i2c.rs` lines 92-139)

The source wraps `crc_any::CRCu8::create_crc(0x31, 8, 0xFF, 0, false)`:
an 8-bit CRC, polynomial 0x31, initial value 0xFF, no final xor, no
reflection.  That is the standard MSB-first bitwise CRC-8; the repository's
own test (`add_crc`, checking `0xBEEF ↦ 0x92` against the datasheet value)
pins the algorithm down. -/

/-- One MSB-first CRC shift step: shift left; if a 1 fell out of bit 7,
reduce by the polynomial 0x31.  Input and output are `u8` values. -/
def crcStep (crc : Nat) : Nat :=
  if 128 ≤ crc then ((crc * 2) % 256) ^^^ 0x31 else (crc * 2) % 256

/-- Digest one byte into the running CRC: xor it in, then do 8 shift steps. -/
def crcDigestByte (crc b : Nat) : Nat :=
  Nat.iterate crcStep 8 (crc ^^^ (b % 256))

/-- CRC-8 of a byte string with the SH30's parameters
(poly 0x31, width 8, init 0xFF, no final xor, no reflect). -/
def crc8 (bytes : List Nat) : Nat :=
  bytes.foldl crcDigestByte 0xFF

/-- `InvalidCRC` (`i2c.rs` lines 95-99): a checksum mismatch, carrying the
locally computed checksum and the byte received on the wire. -/
structure InvalidCRC where
  computed : Nat
  received : Nat
deriving DecidableEq, Repr

namespace SH30CRC

/-- `SH30CRC::add` (`i2c.rs` lines 116-123): append a CRC to the given word;
output the bytes in bus order (big-endian word, then checksum).
The source resets the CRC state first, so this is a pure function. -/
def add (word : Nat) : List Nat :=
  let hi := word / 256 % 256
  let lo := word % 256
  [hi, lo, crc8 [hi, lo]]

/-- `SH30CRC::check` (`i2c.rs` lines 125-138): recompute the checksum over
the first two bytes, compare with the third; on match return the decoded
big-endian word, else the mismatch.  The source indexes `raw[0..2]` and
`raw[2]`; every caller passes at least three bytes, and `getD _ 0` is used
for totality. -/
def check (raw : List Nat) : Except InvalidCRC Nat :=
  let computed := crc8 (raw.take 2)
  let received := raw.getD 2 0
  if computed ≠ received then
    Except.error { computed := computed, received := received }
  else
    Except.ok (raw.getD 0 0 * 256 + raw.getD 1 0)

end SH30CRC

/-! ## Command table (`src/scd30/src/lib.rs` lines 179-260) -/

/-- `Command` (`lib.rs` lines 180-215): the closed set of SCD30 commands. -/
inductive Command where
  | StartContinuous
  | StopContinuous
  | SetContinuousInterval (period : Nat)
  | GetDataReady
  | ReadMeasurement
  | SetAutomaticSelfCalibration (enable : Bool)
  | SetForcedRecalibration (value : Nat)
  | SetTemperatureOffset (value : Nat)
  | SetAltitude (value : Nat)
  | SoftReset
deriving DecidableEq, Repr

namespace Command

/-- `Command::command` (`lib.rs` lines 219-232): the 16-bit command id. -/
def command : Command → Nat
  | .StartContinuous => 0x0010
  | .StopContinuous => 0x0104
  | .SetContinuousInterval _ => 0x4600
  | .GetDataReady => 0x0202
  | .ReadMeasurement => 0x0300
  | .SetAutomaticSelfCalibration _ => 0x5306
  | .SetForcedRecalibration _ => 0x5204
  | .SetTemperatureOffset _ => 0x5403
  | .SetAltitude _ => 0x5102
  | .SoftReset => 0xD304

/-- `Command::data` (`lib.rs` lines 234-246): optional 16-bit payload. -/
def data : Command → Option Nat
  | .StartContinuous => some 0x0000
  | .SetContinuousInterval period => some period
  | .SetAutomaticSelfCalibration false => some 0
  | .SetAutomaticSelfCalibration true => some 1
  | .SetForcedRecalibration value => some value
  | .SetTemperatureOffset value => some value
  | .SetAltitude value => some value
  | _ => none

/-- `Command::data_bytes` (`lib.rs` lines 248-259): number of reply bytes
to read for this command, excluding CRCs (reply words times
`size_of::<u16>() = 2`). -/
def data_bytes (c : Command) : Nat :=
  let words : Nat :=
    match c with
    | .GetDataReady => 1
    | .ReadMeasurement => 6
    | _ => 0
  words * 2

end Command

/-! ## Bus model

`embedded_hal::i2c::I2c<SevenBitAddress>` is the driver's external
collaborator.  It is modelled as a deterministic oracle (`BusEnv`) deciding
the outcome of each transaction from the address and the request, together
with a wire log (`List BusOp`) recording every transaction issued, in order
— the role a mock transport plays in the spec's acceptance tests. -/

/-- One I2C bus transaction as recorded on the wire. -/
inductive BusOp where
  | write (addr : Nat) (bytes : List Nat)
  | read (addr : Nat) (len : Nat)
deriving DecidableEq, Repr

/-- The bus device's behaviour.  `onWrite addr bytes` is `ok ()` on success
or a transport error code; `onRead addr len` is the bytes the device puts
on the wire or a transport error code.  (Transport errors, generic
`I::Error` in the source, are instantiated at `Nat`.) -/
structure BusEnv where
  onWrite : Nat → List Nat → Except Nat Unit
  onRead : Nat → Nat → Except Nat (List Nat)

/-- `ADDRESS` (`i2c.rs` line 11): the fixed I2C bus address of the sensor. -/
def ADDRESS : Nat := 0x61

/-- `I2cComm` (`i2c.rs` lines 14-16): wrapper for the bus, here carrying the
device oracle and the wire log. -/
structure I2cComm where
  env : BusEnv
  log : List BusOp

namespace I2cComm

/-- `I2cComm::new` (`i2c.rs` lines 22-24): wrap a bus; nothing sent yet. -/
def new (env : BusEnv) : I2cComm := { env := env, log := [] }

/-- `self.bus.write(addr, bytes)`: one bus write, recorded in the log. -/
def busWrite (c : I2cComm) (addr : Nat) (bytes : List Nat) :
    Except Nat Unit × I2cComm :=
  (c.env.onWrite addr bytes,
   { c with log := c.log ++ [BusOp.write addr bytes] })

/-- `self.bus.read(addr, buf)` for a buffer of `len` bytes: one bus read,
recorded in the log.  The returned bytes are normalised to `u8` values and
to length exactly `len` (the source reads into a zero-initialised fixed
buffer, which the transport fills completely or not at all). -/
def busRead (c : I2cComm) (addr : Nat) (len : Nat) :
    Except Nat (List Nat) × I2cComm :=
  ((c.env.onRead addr len).map
     (fun bs => (bs.map (· % 256) ++ List.replicate len 0).take len),
   { c with log := c.log ++ [BusOp.read addr len] })

end I2cComm

/-! ## Errors (`src/scd30/src/lib.rs` lines 8-15) -/

/-- `Error` (`lib.rs` lines 9-15), with the transport error at `Nat`. -/
inductive Error where
  | I2cWrite (e : Nat)
  | I2cRead (e : Nat)
  | Crc (c : InvalidCRC)
  | InvalidArgument (s : String)
  | NotReady
deriving DecidableEq, Repr

namespace I2cComm

/-- `I2cComm::send` (`i2c.rs` lines 28-44): serialize the 16-bit command id
big-endian, optionally followed by the 16-bit data word plus its CRC byte
(`SH30CRC::new().add(data)`), and write the 2- or 5-byte frame to the bus
at `ADDRESS` in one bus write.  A transport failure becomes
`Error::I2cWrite`. -/
def send (c : I2cComm) (command : Nat) (data : Option Nat) :
    Except Error Unit × I2cComm :=
  let write_buf :=
    match data with
    | some d => [command / 256 % 256, command % 256] ++ SH30CRC.add d
    | none => [command / 256 % 256, command % 256]
  let (r, c') := c.busWrite ADDRESS write_buf
  (r.mapError Error.I2cWrite, c')

/-- Split a byte string into chunks of three, mirroring Rust's
`slice::chunks(3)` (a final chunk may be shorter). -/
def chunks3 : List Nat → List (List Nat)
  | a :: b :: d :: rest => [a, b, d] :: chunks3 rest
  | [] => []
  | l => [l]

/-- Precondition of `I2cComm::read`, mirroring its two `assert!` calls on
the requested word count (`i2c.rs` lines 60-61).  The buffer length must
also be even: the copy loop writes `data[2*words - 1]`, which for an odd
`data.len()` is out of bounds (a panic); every caller passes an even
length. -/
def readPre (dataLen : Nat) : Prop :=
  (dataLen + 1) / 2 ≤ 6 ∧ 1 ≤ (dataLen + 1) / 2 ∧ dataLen % 2 = 0

instance (dataLen : Nat) : Decidable (readPre dataLen) :=
  inferInstanceAs (Decidable (_ ∧ _ ∧ _))

/-- The copy loop of `I2cComm::read` (`i2c.rs` lines 81-86): for each word,
copy the two data bytes and drop the CRC byte. -/
def copyOut (data_with_crcs : List Nat) (words : Nat) : List Nat :=
  ((List.range words).map
    (fun i => [data_with_crcs.getD (i * 3) 0, data_with_crcs.getD (i * 3 + 1) 0])).flatten

/-- The CRC scan of `I2cComm::read` (`i2c.rs` lines 70-78): the first
checksum mismatch among the 3-byte groups, if any.  In the source its
result is only logged (`eprintln!`); the early `return Err(Error::Crc(err))`
is commented out, so the scan does not affect `read`'s result. -/
def crcScan (data_with_crcs : List Nat) : Option InvalidCRC :=
  (chunks3 data_with_crcs).findSome?
    (fun chunk => match SH30CRC.check chunk with
      | Except.error e => some e
      | Except.ok _ => none)

/-- `I2cComm::read` (`i2c.rs` lines 48-89): read `words_requested` 3-byte
groups from the bus in one bus read, scan their CRCs (logged only, see
`crcScan`), and return the data words' bytes with the CRC bytes removed.
A transport failure becomes `Error::I2cRead`.  The `assert!`s are the
precondition `readPre`. -/
def read (c : I2cComm) (dataLen : Nat) (_h : readPre dataLen) :
    Except Error (List Nat) × I2cComm :=
  let words_requested := (dataLen + 1) / 2
  let (r, c') := c.busRead ADDRESS (words_requested * 3)
  match r with
  | Except.error e => (Except.error (Error.I2cRead e), c')
  | Except.ok data_with_crcs =>
      let _crc_err := crcScan data_with_crcs
      (Except.ok (copyOut data_with_crcs words_requested), c')

end I2cComm

/-! ## Device driver (`src/scd30/src/lib.rs` lines 60-156) -/

/-- `Sample` (`lib.rs` lines 160-167).  Each field is the IEEE-754 binary32
bit pattern (as a `Nat`) of the corresponding `f32`: the source produces
them by `f32::from_be_bytes`, a pure reinterpretation of four bytes, and
never computes with them. -/
structure Sample where
  co2 : Nat
  temperature : Nat
  humidity : Nat
deriving DecidableEq, Repr

/-- `f32::from_be_bytes([b0, b1, b2, b3])`, as the bit pattern. -/
def beU32 (b0 b1 b2 b3 : Nat) : Nat :=
  ((b0 * 256 + b1) * 256 + b2) * 256 + b3

/-- `SCD30Settings` (`lib.rs` lines 68-72).  `period` is the configured
polling period in whole seconds (the source stores a `Duration` and uses
`period.as_secs()`). -/
structure SCD30Settings where
  period : Nat

/-- `SCD30Settings::default` (`lib.rs` lines 74-80): 10-second period. -/
def SCD30Settings.default : SCD30Settings := { period := 10 }

/-- `SCD30` (`lib.rs` lines 61-64): driver handle. -/
structure SCD30 where
  comm : I2cComm
  continuous_enabled : Bool

namespace SCD30

/-- `SCD30::run_command` (`lib.rs` lines 153-155): send a command's id and
payload, without reading data back. -/
def run_command (s : SCD30) (cmd : Command) : Except Error Unit × SCD30 :=
  let (r, c) := s.comm.send cmd.command cmd.data
  (r, { s with comm := c })

/-- `SCD30::new` (`lib.rs` lines 87-105): attach to an SCD30 and configure
it.  Validates the period, then sends SetContinuousInterval and
StartContinuous; only after both succeed is `continuous_enabled` set.
Alongside the `Result`, the final `I2cComm` is returned so the wire log is
observable on the error paths too (in the source the partially-used bus is
dropped with the error; a mock transport still holds its recorded calls). -/
def new (bus : BusEnv) (settings : SCD30Settings) :
    Except Error SCD30 × I2cComm :=
  let s : SCD30 := { comm := I2cComm.new bus, continuous_enabled := false }
  let period := settings.period
  if ¬(2 ≤ period ∧ period ≤ 1800) then
    (Except.error (Error.InvalidArgument
      "period must be between 2 and 1800 seconds"), s.comm)
  else
    -- `period as u16` on a value already validated to lie in [2, 1800]
    let (r1, s1) := s.run_command (Command.SetContinuousInterval (period % 65536))
    match r1 with
    | Except.error e => (Except.error e, s1.comm)
    | Except.ok _ =>
        let (r2, s2) := s1.run_command Command.StartContinuous
        match r2 with
        | Except.error e => (Except.error e, s2.comm)
        | Except.ok _ =>
            (Except.ok { s2 with continuous_enabled := true }, s2.comm)

/-- `SCD30::stop` (`lib.rs` lines 108-116): send StopContinuous; on success
clear `continuous_enabled` and consume the handle, on failure return the
error together with the still-valid handle.  The second component is the
handle's state when the call returns (on success, the state of the
consumed handle at drop), making the flag update observable. -/
def stop (s : SCD30) : Except (Error × SCD30) Unit × SCD30 :=
  let (r, s1) := s.run_command Command.StopContinuous
  match r with
  | Except.ok _ => (Except.ok (), { s1 with continuous_enabled := false })
  | Except.error e => (Except.error (e, s1), s1)

/-- `SCD30::sample` (`lib.rs` lines 121-150): send GetDataReady and read
one word; if it is not 1, fail with NotReady.  Otherwise send
ReadMeasurement, read six words, and decode the twelve data bytes as three
big-endian 32-bit floats in order CO2, temperature, humidity. -/
def sample (s : SCD30) : Except Error Sample × SCD30 :=
  let (r1, s1) := s.run_command Command.GetDataReady
  match r1 with
  | Except.error e => (Except.error e, s1)
  | Except.ok _ =>
    let (r2, c2) := s1.comm.read Command.GetDataReady.data_bytes (by decide)
    let s2 := { s1 with comm := c2 }
    match r2 with
    | Except.error e => (Except.error e, s2)
    | Except.ok ready =>
      if ready.getD 0 0 * 256 + ready.getD 1 0 ≠ 1 then
        (Except.error Error.NotReady, s2)
      else
        let (r3, s3) := s2.run_command Command.ReadMeasurement
        match r3 with
        | Except.error e => (Except.error e, s3)
        | Except.ok _ =>
          let (r4, c4) := s3.comm.read Command.ReadMeasurement.data_bytes (by decide)
          let s4 := { s3 with comm := c4 }
          match r4 with
          | Except.error e => (Except.error e, s4)
          | Except.ok data =>
            (Except.ok
              { co2 := beU32 (data.getD 0 0) (data.getD 1 0)
                  (data.getD 2 0) (data.getD 3 0)
                temperature := beU32 (data.getD 4 0) (data.getD 5 0)
                  (data.getD 6 0) (data.getD 7 0)
                humidity := beU32 (data.getD 8 0) (data.getD 9 0)
                  (data.getD 10 0) (data.getD 11 0) }, s4)

end SCD30

/-! ## Concrete bus devices for exercising the model -/

/-- A bus device on which every transaction succeeds: a 3-byte read returns
the "data ready" word 1, an 18-byte read returns a measurement frame whose
three words pairs are the binary32 bit patterns of 400.0, 21.5 and 45.0
(0x43C80000, 0x41AC0000, 0x42340000). -/
def busOk : BusEnv where
  onWrite := fun _ _ => Except.ok ()
  onRead := fun _ len =>
    if len = 3 then Except.ok (SH30CRC.add 1)
    else Except.ok (SH30CRC.add 0x43C8 ++ SH30CRC.add 0x0000 ++
      SH30CRC.add 0x41AC ++ SH30CRC.add 0x0000 ++
      SH30CRC.add 0x4234 ++ SH30CRC.add 0x0000)

/-- A bus device that accepts every write but always reports "not ready"
(ready word 0). -/
def busNotReady : BusEnv where
  onWrite := fun _ _ => Except.ok ()
  onRead := fun _ _ => Except.ok (SH30CRC.add 0)

/-- A bus device on which every write fails with transport error 7. -/
def busWriteFail : BusEnv where
  onWrite := fun _ _ => Except.error 7
  onRead := fun _ _ => Except.error 7

/-- A bus device whose reads return the frame `[0xBE, 0xEF, 0x91]`: a valid
word with a corrupted checksum byte (the correct one is 0x92). -/
def busBadCrc : BusEnv where
  onWrite := fun _ _ => Except.ok ()
  onRead := fun _ _ => Except.ok [0xBE, 0xEF, 0x91]

/-- A driver handle in continuous mode over `busOk`. -/
def handleOk : SCD30 := { comm := I2cComm.new busOk, continuous_enabled := true }

/-- A driver handle in continuous mode over `busNotReady`. -/
def handleNotReady : SCD30 :=
  { comm := I2cComm.new busNotReady, continuous_enabled := true }

/-- A driver handle in continuous mode over `busWriteFail`. -/
def handleWriteFail : SCD30 :=
  { comm := I2cComm.new busWriteFail, continuous_enabled := true }

/-! ## Theorems -/

/-! ### Helper equations

`crc8` applied to symbolic bytes must be treated as an atom: unfolding its
iterated conditional step on non-literal input blows up definitional
reduction.  These equations, proved by `rfl` on lists whose elements are
variables, let later proofs rewrite past `add` and `check` without ever
reducing into a symbolic `crc8` application. -/

/-- Unfolding `SH30CRC.add`. -/
theorem add_def (w : Nat) :
    SH30CRC.add w = [w / 256 % 256, w % 256, crc8 [w / 256 % 256, w % 256]] :=
  rfl

/-- Unfolding `SH30CRC.check` on a group of at least three bytes. -/
theorem check_cons (b0 b1 r : Nat) (rest : List Nat) :
    SH30CRC.check (b0 :: b1 :: r :: rest) =
      if crc8 [b0, b1] ≠ r then
        Except.error { computed := crc8 [b0, b1], received := r }
      else
        Except.ok (b0 * 256 + b1) :=
  rfl

/-- Unfolding `I2cComm.send` with a data word: the 5-byte frame. -/
theorem send_some (c : I2cComm) (cmd d : Nat) :
    c.send cmd (some d) =
      ((c.env.onWrite ADDRESS (cmd / 256 % 256 :: cmd % 256 :: SH30CRC.add d)).mapError
          Error.I2cWrite,
       ⟨c.env,
        c.log ++ [BusOp.write ADDRESS (cmd / 256 % 256 :: cmd % 256 :: SH30CRC.add d)]⟩) :=
  rfl

/-- Unfolding `I2cComm.send` without a data word: the 2-byte frame. -/
theorem send_none (c : I2cComm) (cmd : Nat) :
    c.send cmd none =
      ((c.env.onWrite ADDRESS [cmd / 256 % 256, cmd % 256]).mapError Error.I2cWrite,
       ⟨c.env, c.log ++ [BusOp.write ADDRESS [cmd / 256 % 256, cmd % 256]]⟩) :=
  rfl

/-- `run_command` with SetContinuousInterval puts the frame
`[0x46, 0x00, dataHi, dataLo, crc]` on the wire. -/
theorem run_command_SetInterval (s : SCD30) (d : Nat) :
    s.run_command (Command.SetContinuousInterval d) =
      ((s.comm.env.onWrite ADDRESS (0x46 :: 0x00 :: SH30CRC.add d)).mapError Error.I2cWrite,
       ⟨⟨s.comm.env, s.comm.log ++ [BusOp.write ADDRESS (0x46 :: 0x00 :: SH30CRC.add d)]⟩,
        s.continuous_enabled⟩) := by
  simp only [SCD30.run_command, Command.command, Command.data, send_some]

/-- `run_command` with StartContinuous puts the frame
`[0x00, 0x10, 0x00, 0x00, crc(0)]` on the wire. -/
theorem run_command_Start (s : SCD30) :
    s.run_command Command.StartContinuous =
      ((s.comm.env.onWrite ADDRESS (0x00 :: 0x10 :: SH30CRC.add 0)).mapError Error.I2cWrite,
       ⟨⟨s.comm.env, s.comm.log ++ [BusOp.write ADDRESS (0x00 :: 0x10 :: SH30CRC.add 0)]⟩,
        s.continuous_enabled⟩) := by
  simp only [SCD30.run_command, Command.command, Command.data, send_some]

/-- `run_command` with StopContinuous puts the frame `[0x01, 0x04]` on the
wire. -/
theorem run_command_Stop (s : SCD30) :
    s.run_command Command.StopContinuous =
      ((s.comm.env.onWrite ADDRESS [0x01, 0x04]).mapError Error.I2cWrite,
       ⟨⟨s.comm.env, s.comm.log ++ [BusOp.write ADDRESS [0x01, 0x04]]⟩,
        s.continuous_enabled⟩) := by
  simp only [SCD30.run_command, Command.command, Command.data, send_none]

/-- `run_command` with GetDataReady puts the frame `[0x02, 0x02]` on the
wire. -/
theorem run_command_GetReady (s : SCD30) :
    s.run_command Command.GetDataReady =
      ((s.comm.env.onWrite ADDRESS [0x02, 0x02]).mapError Error.I2cWrite,
       ⟨⟨s.comm.env, s.comm.log ++ [BusOp.write ADDRESS [0x02, 0x02]]⟩,
        s.continuous_enabled⟩) := by
  simp only [SCD30.run_command, Command.command, Command.data, send_none]

/-- `run_command` with ReadMeasurement puts the frame `[0x03, 0x00]` on
the wire. -/
theorem run_command_ReadMeas (s : SCD30) :
    s.run_command Command.ReadMeasurement =
      ((s.comm.env.onWrite ADDRESS [0x03, 0x00]).mapError Error.I2cWrite,
       ⟨⟨s.comm.env, s.comm.log ++ [BusOp.write ADDRESS [0x03, 0x00]]⟩,
        s.continuous_enabled⟩) := by
  simp only [SCD30.run_command, Command.command, Command.data, send_none]

/-- `run_command` never touches `continuous_enabled`, whatever the command
and the outcome. -/
theorem run_command_flag (s : SCD30) (cmd : Command) :
    (s.run_command cmd).2.continuous_enabled = s.continuous_enabled := rfl

/-- A one-word read (the GetDataReady reply: 2 data bytes, so 3 bytes on
the wire) whose bus read returns the well-formed frame for word `w`
delivers the two big-endian bytes of `w`. -/
theorem read_one_word (c : I2cComm) (h : I2cComm.readPre Command.GetDataReady.data_bytes)
    (w : Nat) (hw : w < 65536)
    (hr : c.env.onRead ADDRESS 3 = Except.ok (SH30CRC.add w)) :
    c.read Command.GetDataReady.data_bytes h =
      (Except.ok [w / 256, w % 256], ⟨c.env, c.log ++ [BusOp.read ADDRESS 3]⟩) := by
  have h1 : w / 256 % 256 % 256 = w / 256 := by omega
  have h2 : w % 256 % 256 = w % 256 := by omega
  have e3 : (Command.GetDataReady.data_bytes + 1) / 2 * 3 = 3 := rfl
  have e1 : (Command.GetDataReady.data_bytes + 1) / 2 = 1 := rfl
  unfold I2cComm.read I2cComm.busRead
  simp only [e3, e1, hr, Except.map, add_def, List.map_cons, List.map_nil,
    List.cons_append, List.nil_append, h1, h2]
  rfl

/-- A six-word read (the ReadMeasurement reply: 12 data bytes, so 18 bytes
on the wire) whose bus read returns the six well-formed frames for words
`w0..w5` delivers their twelve big-endian data bytes, CRCs removed. -/
theorem read_six_words (c : I2cComm) (h : I2cComm.readPre Command.ReadMeasurement.data_bytes)
    (w0 w1 w2 w3 w4 w5 : Nat)
    (b0 : w0 < 65536) (b1 : w1 < 65536) (b2 : w2 < 65536)
    (b3 : w3 < 65536) (b4 : w4 < 65536) (b5 : w5 < 65536)
    (hr : c.env.onRead ADDRESS 18 = Except.ok
      (SH30CRC.add w0 ++ SH30CRC.add w1 ++ SH30CRC.add w2 ++
       SH30CRC.add w3 ++ SH30CRC.add w4 ++ SH30CRC.add w5)) :
    c.read Command.ReadMeasurement.data_bytes h =
      (Except.ok [w0 / 256, w0 % 256, w1 / 256, w1 % 256, w2 / 256, w2 % 256,
                  w3 / 256, w3 % 256, w4 / 256, w4 % 256, w5 / 256, w5 % 256],
       ⟨c.env, c.log ++ [BusOp.read ADDRESS 18]⟩) := by
  have d0 : w0 / 256 % 256 % 256 = w0 / 256 := by omega
  have d1 : w1 / 256 % 256 % 256 = w1 / 256 := by omega
  have d2 : w2 / 256 % 256 % 256 = w2 / 256 := by omega
  have d3 : w3 / 256 % 256 % 256 = w3 / 256 := by omega
  have d4 : w4 / 256 % 256 % 256 = w4 / 256 := by omega
  have d5 : w5 / 256 % 256 % 256 = w5 / 256 := by omega
  have m0 : w0 % 256 % 256 = w0 % 256 := by omega
  have m1 : w1 % 256 % 256 = w1 % 256 := by omega
  have m2 : w2 % 256 % 256 = w2 % 256 := by omega
  have m3 : w3 % 256 % 256 = w3 % 256 := by omega
  have m4 : w4 % 256 % 256 = w4 % 256 := by omega
  have m5 : w5 % 256 % 256 = w5 % 256 := by omega
  have e3 : (Command.ReadMeasurement.data_bytes + 1) / 2 * 3 = 18 := rfl
  have e1 : (Command.ReadMeasurement.data_bytes + 1) / 2 = 6 := rfl
  unfold I2cComm.read I2cComm.busRead
  simp only [e3, e1, hr, Except.map, add_def, List.cons_append, List.nil_append,
    List.map_cons, List.map_nil, d0, d1, d2, d3, d4, d5, m0, m1, m2, m3, m4, m5]
  rfl

/-- Inversion of a successful `new`: the period was in range, both
configuration writes were accepted by the device, and the returned handle
has `continuous_enabled` set. -/
theorem new_ok_inversion (bus : BusEnv) (p : Nat) (s : SCD30) (c : I2cComm)
    (hnew : SCD30.new bus { period := p } = (Except.ok s, c)) :
    s.continuous_enabled = true
    ∧ 2 ≤ p ∧ p ≤ 1800
    ∧ bus.onWrite ADDRESS (0x46 :: 0x00 :: SH30CRC.add p) = Except.ok ()
    ∧ bus.onWrite ADDRESS (0x00 :: 0x10 :: SH30CRC.add 0) = Except.ok () := by
  by_cases hc : 2 ≤ p ∧ p ≤ 1800
  · have hp : p % 65536 = p := Nat.mod_eq_of_lt (by omega)
    simp only [SCD30.new, I2cComm.new, hp, run_command_SetInterval, run_command_Start] at hnew
    rw [if_neg (not_not_intro hc)] at hnew
    rcases hw1 : bus.onWrite ADDRESS (0x46 :: 0x00 :: SH30CRC.add p) with e1 | u1
    · rw [hw1] at hnew
      simp only [Except.mapError] at hnew
      injection hnew with h1 h2
      exact Except.noConfusion h1
    · rw [hw1] at hnew
      simp only [Except.mapError] at hnew
      rcases hw2 : bus.onWrite ADDRESS (0x00 :: 0x10 :: SH30CRC.add 0) with e2 | u2
      · rw [hw2] at hnew
        simp only [Except.mapError] at hnew
        injection hnew with h1 h2
        exact Except.noConfusion h1
      · rw [hw2] at hnew
        simp only [Except.mapError] at hnew
        injection hnew with h1 h2
        injection h1 with h3
        subst h3
        exact ⟨rfl, hc.1, hc.2, rfl, rfl⟩
  · simp only [SCD30.new] at hnew
    rw [if_pos hc] at hnew
    injection hnew with h1 h2
    exact Except.noConfusion h1

/-- C1: the command-table lookups agree exactly with the wire table:
`command` returns the documented 16-bit id for every variant; `data`
returns `some 0x0000` for StartContinuous, `some seconds` for
SetContinuousInterval, `some 0`/`some 1` for
SetAutomaticSelfCalibration(false/true), the given value for
SetForcedRecalibration, SetTemperatureOffset and SetAltitude, and `none`
otherwise; and the expected reply length (`data_bytes`, in bytes: words
times two) is 1 word for GetDataReady, 6 words for ReadMeasurement, and 0
words for every other variant. -/
theorem command_table_correct :
    (Command.StartContinuous.command = 0x0010
      ∧ Command.StopContinuous.command = 0x0104
      ∧ (∀ s, (Command.SetContinuousInterval s).command = 0x4600)
      ∧ Command.GetDataReady.command = 0x0202
      ∧ Command.ReadMeasurement.command = 0x0300
      ∧ (∀ b, (Command.SetAutomaticSelfCalibration b).command = 0x5306)
      ∧ (∀ v, (Command.SetForcedRecalibration v).command = 0x5204)
      ∧ (∀ v, (Command.SetTemperatureOffset v).command = 0x5403)
      ∧ (∀ v, (Command.SetAltitude v).command = 0x5102)
      ∧ Command.SoftReset.command = 0xD304)
    ∧ (Command.StartContinuous.data = some 0x0000
      ∧ (∀ s, (Command.SetContinuousInterval s).data = some s)
      ∧ (Command.SetAutomaticSelfCalibration false).data = some 0
      ∧ (Command.SetAutomaticSelfCalibration true).data = some 1
      ∧ (∀ v, (Command.SetForcedRecalibration v).data = some v)
      ∧ (∀ v, (Command.SetTemperatureOffset v).data = some v)
      ∧ (∀ v, (Command.SetAltitude v).data = some v)
      ∧ Command.StopContinuous.data = none
      ∧ Command.GetDataReady.data = none
      ∧ Command.ReadMeasurement.data = none
      ∧ Command.SoftReset.data = none)
    ∧ (Command.GetDataReady.data_bytes = 1 * 2
      ∧ Command.ReadMeasurement.data_bytes = 6 * 2
      ∧ Command.StartContinuous.data_bytes = 0 * 2
      ∧ Command.StopContinuous.data_bytes = 0 * 2
      ∧ (∀ s, (Command.SetContinuousInterval s).data_bytes = 0 * 2)
      ∧ (∀ b, (Command.SetAutomaticSelfCalibration b).data_bytes = 0 * 2)
      ∧ (∀ v, (Command.SetForcedRecalibration v).data_bytes = 0 * 2)
      ∧ (∀ v, (Command.SetTemperatureOffset v).data_bytes = 0 * 2)
      ∧ (∀ v, (Command.SetAltitude v).data_bytes = 0 * 2)
      ∧ Command.SoftReset.data_bytes = 0 * 2) :=
  ⟨⟨rfl, rfl, fun _ => rfl, rfl, rfl, fun _ => rfl, fun _ => rfl, fun _ => rfl,
    fun _ => rfl, rfl⟩,
   ⟨rfl, fun _ => rfl, rfl, rfl, fun _ => rfl, fun _ => rfl, fun _ => rfl,
    rfl, rfl, rfl, rfl⟩,
   ⟨rfl, rfl, rfl, rfl, fun _ => rfl, fun b => by cases b <;> rfl,
    fun _ => rfl, fun _ => rfl, fun _ => rfl, rfl⟩⟩

/-- C2: for every 16-bit word `w`, verifying the checksum of the 3-byte
group produced by `add` succeeds and returns `w`:
`check (add w) = ok w`. -/
theorem checksum_roundtrip (w : Nat) (h : w < 65536) :
    SH30CRC.check (SH30CRC.add w) = Except.ok w := by
  rw [add_def, check_cons, if_neg (fun hne => hne rfl)]
  congr 1
  omega

/-- C2 witness: the round-trip law at the concrete word 0xBEEF. -/
theorem checksum_roundtrip_witness :
    0xBEEF < 65536 ∧ SH30CRC.check (SH30CRC.add 0xBEEF) = Except.ok 0xBEEF :=
  ⟨by decide, checksum_roundtrip 0xBEEF (by decide)⟩

/-- C3: concrete vectors for the checksum engine (poly 0x31, width 8,
init 0xFF, no final xor, no reflect): `add 0xBEEF = [0xBE, 0xEF, 0x92]`;
`check [0xBE, 0xEF, 0x92] = ok 0xBEEF`; and `check [0xBE, 0xEF, 0x91]` is
a checksum mismatch carrying computed 0x92 and received 0x91. -/
theorem checksum_concrete_vectors :
    SH30CRC.add 0xBEEF = [0xBE, 0xEF, 0x92]
    ∧ SH30CRC.check [0xBE, 0xEF, 0x92] = Except.ok 0xBEEF
    ∧ SH30CRC.check [0xBE, 0xEF, 0x91] =
        Except.error { computed := 0x92, received := 0x91 } :=
  ⟨rfl, rfl, rfl⟩

/-- C4: for every settings value whose period in whole seconds lies outside
[2, 1800], `new` returns InvalidArgument (the spec's
InvalidConfiguration) and performs no bus traffic: the wire log is
empty. -/
theorem open_invalid_period_no_bus_traffic (bus : BusEnv) (p : Nat)
    (h : ¬(2 ≤ p ∧ p ≤ 1800)) :
    (SCD30.new bus { period := p }).1 =
      Except.error (Error.InvalidArgument
        "period must be between 2 and 1800 seconds")
    ∧ (SCD30.new bus { period := p }).2.log = [] := by
  unfold SCD30.new
  rw [if_pos h]
  exact ⟨rfl, rfl⟩

/-- C4 witness: periods 1 and 1801 are rejected with no bus traffic. -/
theorem open_invalid_period_no_bus_traffic_witness :
    (¬(2 ≤ 1 ∧ 1 ≤ 1800)
      ∧ (SCD30.new busOk { period := 1 }).1 =
          Except.error (Error.InvalidArgument
            "period must be between 2 and 1800 seconds")
      ∧ (SCD30.new busOk { period := 1 }).2.log = [])
    ∧ (¬(2 ≤ 1801 ∧ 1801 ≤ 1800)
      ∧ (SCD30.new busOk { period := 1801 }).1 =
          Except.error (Error.InvalidArgument
            "period must be between 2 and 1800 seconds")
      ∧ (SCD30.new busOk { period := 1801 }).2.log = []) :=
  ⟨⟨by decide, open_invalid_period_no_bus_traffic busOk 1 (by decide)⟩,
   ⟨by decide, open_invalid_period_no_bus_traffic busOk 1801 (by decide)⟩⟩

/-- C5: for every in-range period, when the device accepts both frames, a
successful `new` performs exactly two bus writes, in order: first the
SetContinuousInterval frame `[0x46, 0x00, periodHi, periodLo, crc(period)]`
(that is, `0x46 :: 0x00 :: add period`), then the StartContinuous frame
`[0x00, 0x10, 0x00, 0x00, crc(0x0000)]` (that is, `0x00 :: 0x10 :: add 0`),
each data word checksummed by the engine, each frame written to device
address `ADDRESS = 0x61` in one bus write, and nothing else on the wire. -/
theorem open_sends_two_frames (bus : BusEnv) (p : Nat)
    (h2 : 2 ≤ p) (h18 : p ≤ 1800)
    (hw1 : bus.onWrite ADDRESS (0x46 :: 0x00 :: SH30CRC.add p) = Except.ok ())
    (hw2 : bus.onWrite ADDRESS (0x00 :: 0x10 :: SH30CRC.add 0x0000) = Except.ok ()) :
    ADDRESS = 0x61
    ∧ ∃ s, SCD30.new bus { period := p } = (Except.ok s, s.comm)
      ∧ s.comm.log = [BusOp.write ADDRESS (0x46 :: 0x00 :: SH30CRC.add p),
                      BusOp.write ADDRESS (0x00 :: 0x10 :: SH30CRC.add 0x0000)] := by
  have hp : p % 65536 = p := Nat.mod_eq_of_lt (by omega)
  refine ⟨rfl, (⟨⟨bus, [BusOp.write ADDRESS (0x46 :: 0x00 :: SH30CRC.add p),
    BusOp.write ADDRESS (0x00 :: 0x10 :: SH30CRC.add 0x0000)]⟩, true⟩ : SCD30), ?_, rfl⟩
  simp only [SCD30.new, I2cComm.new, hp, run_command_SetInterval, run_command_Start,
    hw1, hw2, Except.mapError, List.cons_append, List.nil_append]
  rw [if_neg (not_not_intro ⟨h2, h18⟩)]

/-- C5 witness: a successful `new` with period 10 on `busOk` sends exactly
the two expected frames. -/
theorem open_sends_two_frames_witness :
    ADDRESS = 0x61
    ∧ ∃ s, SCD30.new busOk { period := 10 } = (Except.ok s, s.comm)
      ∧ s.comm.log = [BusOp.write ADDRESS (0x46 :: 0x00 :: SH30CRC.add 10),
                      BusOp.write ADDRESS (0x00 :: 0x10 :: SH30CRC.add 0x0000)] :=
  open_sends_two_frames busOk 10 (by decide) (by decide) rfl rfl

/-- C6: when `sample` reads a ready word equal to 1 and the six reply
words `w0..w5` arrive as well-formed frames, `sample` returns a `Sample`
decoded in fixed order: CO2 from reply bytes 0..4 (words `w0, w1`),
temperature from bytes 4..8 (words `w2, w3`), humidity from bytes 8..12
(words `w4, w5`), each field the big-endian 32-bit value — the bit pattern
of the corresponding IEEE-754 float. -/
theorem sample_decodes_measurement (s : SCD30) (w0 w1 w2 w3 w4 w5 : Nat)
    (b0 : w0 < 65536) (b1 : w1 < 65536) (b2 : w2 < 65536)
    (b3 : w3 < 65536) (b4 : w4 < 65536) (b5 : w5 < 65536)
    (hwW1 : s.comm.env.onWrite ADDRESS [0x02, 0x02] = Except.ok ())
    (hwR1 : s.comm.env.onRead ADDRESS 3 = Except.ok (SH30CRC.add 1))
    (hwW2 : s.comm.env.onWrite ADDRESS [0x03, 0x00] = Except.ok ())
    (hwR2 : s.comm.env.onRead ADDRESS 18 = Except.ok
      (SH30CRC.add w0 ++ SH30CRC.add w1 ++ SH30CRC.add w2 ++
       SH30CRC.add w3 ++ SH30CRC.add w4 ++ SH30CRC.add w5)) :
    (s.sample).1 = Except.ok
      { co2 := w0 * 65536 + w1, temperature := w2 * 65536 + w3,
        humidity := w4 * 65536 + w5 } := by
  simp only [SCD30.sample, run_command_GetReady, hwW1, Except.mapError]
  rw [read_one_word ⟨s.comm.env, s.comm.log ++ [BusOp.write ADDRESS [0x02, 0x02]]⟩
    (by decide) 1 (by omega) hwR1]
  simp only [List.getD_cons_zero, List.getD_cons_succ]
  rw [if_neg (by decide : ¬((1:Nat) / 256 * 256 + 1 % 256 ≠ 1))]
  simp only [run_command_ReadMeas, hwW2, Except.mapError, List.append_assoc,
    List.cons_append, List.nil_append]
  rw [read_six_words ⟨s.comm.env,
    s.comm.log ++ [BusOp.write ADDRESS [0x02, 0x02], BusOp.read ADDRESS 3,
      BusOp.write ADDRESS [0x03, 0x00]]⟩ (by decide) w0 w1 w2 w3 w4 w5 b0 b1 b2 b3 b4 b5 hwR2]
  simp only [List.getD_cons_zero, List.getD_cons_succ, beU32, Except.ok.injEq,
    Sample.mk.injEq]
  refine ⟨by omega, by omega, by omega⟩

/-- C6 witness: over `busOk` the six reply words are 0x43C8,0 / 0x41AC,0 /
0x4234,0, and the sample's fields are 0x43C80000, 0x41AC0000, 0x42340000 —
the IEEE-754 binary32 bit patterns of 400.0, 21.5 and 45.0. -/
theorem sample_decodes_measurement_witness :
    (handleOk.sample).1 = Except.ok
      { co2 := 0x43C80000, temperature := 0x41AC0000, humidity := 0x42340000 } :=
  sample_decodes_measurement handleOk 0x43C8 0 0x41AC 0 0x4234 0
    (by decide) (by decide) (by decide) (by decide) (by decide) (by decide)
    rfl rfl rfl rfl

/-- C7: when the single ready word `w` returned for GetDataReady is not 1,
`sample` returns NotReady and performs no further bus traffic: the wire
log of the whole call is exactly the GetDataReady write followed by the
one-word read — the ReadMeasurement command is never sent and no further
read occurs. -/
theorem sample_not_ready_no_further_traffic (s : SCD30) (w : Nat)
    (hw : w < 65536) (hne : w ≠ 1)
    (hwW : s.comm.env.onWrite ADDRESS [0x02, 0x02] = Except.ok ())
    (hwR : s.comm.env.onRead ADDRESS 3 = Except.ok (SH30CRC.add w)) :
    s.sample = (Except.error Error.NotReady,
      ⟨⟨s.comm.env, s.comm.log ++ [BusOp.write ADDRESS [0x02, 0x02], BusOp.read ADDRESS 3]⟩,
       s.continuous_enabled⟩) := by
  simp only [SCD30.sample, run_command_GetReady, hwW, Except.mapError]
  rw [read_one_word ⟨s.comm.env, s.comm.log ++ [BusOp.write ADDRESS [0x02, 0x02]]⟩
    (by decide) w hw hwR]
  simp only [List.getD_cons_zero, List.getD_cons_succ]
  rw [if_pos (by omega : w / 256 * 256 + w % 256 ≠ 1)]
  simp only [List.append_assoc, List.cons_append, List.nil_append]

/-- C7 witness: a ready word of 0 yields NotReady with exactly two wire
operations. -/
theorem sample_not_ready_witness :
    handleNotReady.sample = (Except.error Error.NotReady,
      ⟨⟨busNotReady, [BusOp.write ADDRESS [0x02, 0x02], BusOp.read ADDRESS 3]⟩, true⟩) :=
  sample_not_ready_no_further_traffic handleNotReady 0 (by decide) (by decide) rfl rfl

/-- C8: for every incoming frame whose bus read succeeds but in which some
3-byte group fails its checksum, `read` still returns success with the
(possibly corrupted) data words copied out to the caller; the mismatch is
never surfaced as an error (the source logs it and has the
`return Err(Error::Crc(err))` commented out). -/
theorem read_checksum_mismatch_logged_not_error (c : I2cComm) (dataLen : Nat)
    (h : I2cComm.readPre dataLen) (frame : List Nat)
    (hlen : frame.length = (dataLen + 1) / 2 * 3)
    (hbytes : ∀ b ∈ frame, b < 256)
    (hr : c.env.onRead ADDRESS ((dataLen + 1) / 2 * 3) = Except.ok frame)
    (hbad : ∃ chunk ∈ I2cComm.chunks3 frame, ∃ e, SH30CRC.check chunk = Except.error e) :
    c.read dataLen h =
      (Except.ok (I2cComm.copyOut frame ((dataLen + 1) / 2)),
       ⟨c.env, c.log ++ [BusOp.read ADDRESS ((dataLen + 1) / 2 * 3)]⟩) := by
  have hmap : frame.map (· % 256) = frame := by
    conv_rhs => rw [← List.map_id frame]
    exact List.map_congr_left fun b hb => Nat.mod_eq_of_lt (hbytes b hb)
  have hnorm : (frame.map (· % 256) ++ List.replicate ((dataLen + 1) / 2 * 3) 0).take
      ((dataLen + 1) / 2 * 3) = frame := by
    rw [hmap, ← hlen, List.take_left]
  unfold I2cComm.read I2cComm.busRead
  simp only [hr, Except.map, hnorm]

/-- C8 witness: the frame `[0xBE, 0xEF, 0x91]` has a checksum mismatch
(the correct byte is 0x92), yet `read` returns the corrupted word's bytes
`[0xBE, 0xEF]` with success. -/
theorem read_checksum_mismatch_witness :
    (I2cComm.new busBadCrc).read 2 (by decide) =
      (Except.ok [0xBE, 0xEF], ⟨busBadCrc, [BusOp.read ADDRESS 3]⟩) :=
  read_checksum_mismatch_logged_not_error (I2cComm.new busBadCrc) 2 (by decide)
    [0xBE, 0xEF, 0x91] (by decide) (by decide) rfl
    ⟨[0xBE, 0xEF, 0x91], by decide, ⟨{ computed := 0x92, received := 0x91 }, rfl⟩⟩

/-- C9: `stop` sends exactly the StopContinuous frame `[0x01, 0x04]` (and
nothing else); on a successful write it returns `Ok(())` with
`continuous_enabled` cleared on the consumed handle; on a write failure it
returns the error paired with the still-valid handle, whose
`continuous_enabled` is unchanged, so the caller may retry. -/
theorem stop_behavior (s : SCD30) :
    ((s.stop).2.comm.log = s.comm.log ++ [BusOp.write ADDRESS [0x01, 0x04]])
    ∧ (s.comm.env.onWrite ADDRESS [0x01, 0x04] = Except.ok () →
        (s.stop).1 = Except.ok () ∧ (s.stop).2.continuous_enabled = false)
    ∧ (∀ e, s.comm.env.onWrite ADDRESS [0x01, 0x04] = Except.error e →
        (s.stop).1 = Except.error (Error.I2cWrite e,
          ⟨⟨s.comm.env, s.comm.log ++ [BusOp.write ADDRESS [0x01, 0x04]]⟩,
           s.continuous_enabled⟩)
        ∧ (s.stop).2.continuous_enabled = s.continuous_enabled) := by
  rcases hw : s.comm.env.onWrite ADDRESS [0x01, 0x04] with e | u
  · refine ⟨?_, ?_, ?_⟩
    · simp only [SCD30.stop, run_command_Stop, hw, Except.mapError]
    · intro hok
      exact Except.noConfusion hok
    · intro e' he'
      injection he' with h
      subst h
      exact ⟨by simp only [SCD30.stop, run_command_Stop, hw, Except.mapError],
        by simp only [SCD30.stop, run_command_Stop, hw, Except.mapError]⟩
  · refine ⟨?_, fun _ => ⟨?_, ?_⟩, ?_⟩
    · simp only [SCD30.stop, run_command_Stop, hw, Except.mapError]
    · simp only [SCD30.stop, run_command_Stop, hw, Except.mapError]
    · simp only [SCD30.stop, run_command_Stop, hw, Except.mapError]
    · intro e' he'
      exact Except.noConfusion he'

/-- C9 witness: `stop` on a healthy bus succeeds clearing the flag; on a
bus whose writes fail with transport error 7 it returns the error and a
handle with the flag still set. -/
theorem stop_behavior_witness :
    ((handleOk.stop).1 = Except.ok () ∧ (handleOk.stop).2.continuous_enabled = false)
    ∧ ((handleWriteFail.stop).1 = Except.error (Error.I2cWrite 7,
        ⟨⟨busWriteFail, [BusOp.write ADDRESS [0x01, 0x04]]⟩, true⟩)
      ∧ (handleWriteFail.stop).2.continuous_enabled = handleWriteFail.continuous_enabled) :=
  ⟨(stop_behavior handleOk).2.1 rfl, (stop_behavior handleWriteFail).2.2 7 rfl⟩

/-- C10: `continuous_enabled` is true exactly between a successful `new`
and a successful `stop`: a successful `new` returns a handle with the flag
set, and only after both configuration writes were accepted; `stop` clears
the flag exactly on success and leaves it unchanged (on the returned,
still-valid handle and on the final state) on failure; and `sample` never
mutates it, in any of its outcomes. -/
theorem continuous_enabled_invariant :
    (∀ bus p s c, SCD30.new bus { period := p } = (Except.ok s, c) →
      s.continuous_enabled = true
      ∧ bus.onWrite ADDRESS (0x46 :: 0x00 :: SH30CRC.add p) = Except.ok ()
      ∧ bus.onWrite ADDRESS (0x00 :: 0x10 :: SH30CRC.add 0) = Except.ok ())
    ∧ (∀ s : SCD30, (s.stop).1 = Except.ok () → (s.stop).2.continuous_enabled = false)
    ∧ (∀ s : SCD30, ∀ e s', (s.stop).1 = Except.error (e, s') →
        s'.continuous_enabled = s.continuous_enabled
        ∧ (s.stop).2.continuous_enabled = s.continuous_enabled)
    ∧ (∀ s : SCD30, (s.sample).2.continuous_enabled = s.continuous_enabled) := by
  refine ⟨?_, ?_, ?_, ?_⟩
  · intro bus p s c hnew
    obtain ⟨hflag, _, _, hw1, hw2⟩ := new_ok_inversion bus p s c hnew
    exact ⟨hflag, hw1, hw2⟩
  · intro s hok
    rcases hw : s.comm.env.onWrite ADDRESS [0x01, 0x04] with e | u
    · simp only [SCD30.stop, run_command_Stop, hw, Except.mapError] at hok
      exact Except.noConfusion hok
    · simp only [SCD30.stop, run_command_Stop, hw, Except.mapError]
  · intro s e s' hs
    rcases hw : s.comm.env.onWrite ADDRESS [0x01, 0x04] with e0 | u0
    · simp only [SCD30.stop, run_command_Stop, hw, Except.mapError] at hs ⊢
      injection hs with h1
      injection h1 with h2 h3
      subst h3
      exact ⟨rfl, trivial⟩
    · simp only [SCD30.stop, run_command_Stop, hw, Except.mapError] at hs
      exact Except.noConfusion hs
  · intro s
    unfold SCD30.sample
    dsimp only
    repeat' split
    all_goals simp only [run_command_flag]

/-- C10 witness: the invariant's clauses at concrete handles — a fresh
`new` over `busOk` yields the flag set; a successful `stop` clears it; a
failed `stop` preserves it; `sample` preserves it. -/
theorem continuous_enabled_invariant_witness :
    ((⟨⟨busOk, [BusOp.write ADDRESS (0x46 :: 0x00 :: SH30CRC.add 10),
        BusOp.write ADDRESS (0x00 :: 0x10 :: SH30CRC.add 0)]⟩, true⟩ :
          SCD30).continuous_enabled = true)
    ∧ (handleOk.stop).2.continuous_enabled = false
    ∧ (handleWriteFail.stop).2.continuous_enabled = handleWriteFail.continuous_enabled
    ∧ (handleOk.sample).2.continuous_enabled = handleOk.continuous_enabled := by
  refine ⟨?_, ?_, ?_, ?_⟩
  · exact (continuous_enabled_invariant.1 busOk 10
      ⟨⟨busOk, [BusOp.write ADDRESS (0x46 :: 0x00 :: SH30CRC.add 10),
        BusOp.write ADDRESS (0x00 :: 0x10 :: SH30CRC.add 0)]⟩, true⟩
      ⟨busOk, [BusOp.write ADDRESS (0x46 :: 0x00 :: SH30CRC.add 10),
        BusOp.write ADDRESS (0x00 :: 0x10 :: SH30CRC.add 0)]⟩ (by rfl)).1
  · exact continuous_enabled_invariant.2.1 handleOk (by rfl)
  · exact (continuous_enabled_invariant.2.2.1 handleWriteFail (Error.I2cWrite 7)
      ⟨⟨busWriteFail, [BusOp.write ADDRESS [0x01, 0x04]]⟩, true⟩ (by rfl)).2
  · exact continuous_enabled_invariant.2.2.2 handleOk

end Scd30
